import Mathlib

/-!
Shallow embedding of the report-generation pipeline in `src/main.py`
(functions `read_template`, `calculate_mean_scores`, `create_bar_chart`,
`create_senior_comparison_chart`, `generate_interactive_report`), together
with theorems settling the specification claims about it.

Modelling conventions:
* A DataFrame row is a `Row` structure with the four columns the program
  reads (`NIVEL`, `CARGO`, `CATEGORIA`, `PONTUACAO`); a table is a
  `List Row`.  Scores are modelled as exact rationals `ℚ`.
* A Python dict produced by `.to_dict()` is an association list
  `List (String × ℚ)`; `dict.get(k, 0)` is `dictGet`.
* pandas `groupby(...).mean()` groups by the distinct key values of the
  filtered rows (keys sorted, as pandas does by default) and takes the
  arithmetic mean of the score column per group.
* A plotly figure is a `Figure` structure recording the two bar traces
  (x values, y values, series name) and the layout fields set by
  `update_layout`.  Serialisation to markup (`to_html`) is the identity
  on this description: the markup is determined by the figure, up to the
  library-injected unique div identifiers which the claims ignore.
* The file system is an explicit map `String → Option (List Fragment)`;
  a template file is a fragment list with `hole` placeholders, rendering
  substitutes chart markup for holes (jinja2 named-variable substitution,
  undefined variables rendering as empty text).  `open` on a missing path
  raises `FileNotFoundError`, modelled as `Except.error`.
* `generate_interactive_report` threads the file system and the table
  explicitly and returns them with the output path, so that claims about
  file effects and table immutability are statable.
-/

/-- One row of the input table: the four columns `src/main.py` reads. -/
structure Row where
  NIVEL : String
  CARGO : String
  CATEGORIA : String
  PONTUACAO : ℚ
deriving DecidableEq

/-- Python `d.get(k, 0)` on a dict modelled as an association list. -/
def dictGet (d : List (String × ℚ)) (k : String) : ℚ :=
  (d.lookup k).getD 0

/-- Arithmetic mean of a list of scores, as pandas `.mean()` computes it
on a nonempty group. -/
def listMean (l : List ℚ) : ℚ :=
  l.sum / (l.length : ℚ)

/-- The sorted distinct `CATEGORIA` values of a row list: the group keys
of pandas `groupby('CATEGORIA')` (sorted, pandas default). -/
def sortedKeys (rows : List Row) : List String :=
  List.insertionSort (· ≤ ·) (rows.map Row.CATEGORIA).dedup

/-- pandas `rows.groupby(category_column)['PONTUACAO'].mean().to_dict()`:
one entry per distinct category value of `rows`, holding the mean score
of that category's rows. -/
def groupMeans (rows : List Row) : List (String × ℚ) :=
  (sortedKeys rows).map fun k =>
    (k, listMean ((rows.filter fun r => r.CATEGORIA == k).map Row.PONTUACAO))

/-- `calculate_mean_scores` (src/main.py:20-33): filter the rows whose
`NIVEL` equals `level`, group by `CATEGORIA`, mean of `PONTUACAO`.
The `category_column` parameter is always its default `'CATEGORIA'` and is
fixed in the embedding. -/
def calculate_mean_scores (data : List Row) (level : String) : List (String × ℚ) :=
  groupMeans (data.filter fun r => r.NIVEL == level)

/-- One plotly bar trace: `go.Bar(x=…, y=…, name=…)`. -/
structure BarTrace where
  x : List String
  y : List ℚ
  name : String
deriving DecidableEq

/-- A plotly figure with the two traces added by the chart builders and
the layout fields set by `update_layout`. -/
structure Figure where
  traceA : BarTrace
  traceB : BarTrace
  title : String
  yaxis_title : String
  barmode : String
  xaxis_tickangle : Int
deriving DecidableEq

/-- `create_bar_chart` (src/main.py:35-58). -/
def create_bar_chart (data1 data2 : List (String × ℚ)) (labels : List String)
    (title yaxis_title : String) : Figure :=
  { traceA := { x := labels, y := labels.map fun label => dictGet data1 label,
                name := "Juniors" }
    traceB := { x := labels, y := labels.map fun label => dictGet data2 label,
                name := "Seniors" }
    title := title
    yaxis_title := yaxis_title
    barmode := "group"
    xaxis_tickangle := -45 }

/-- `create_senior_comparison_chart` (src/main.py:60-83). -/
def create_senior_comparison_chart (data_senior_data data_senior_analytics : List (String × ℚ))
    (categories : List String) (title yaxis_title : String) : Figure :=
  { traceA := { x := categories, y := categories.map fun cat => dictGet data_senior_data cat,
                name := "Data Engineers Senior" }
    traceB := { x := categories, y := categories.map fun cat => dictGet data_senior_analytics cat,
                name := "Analytics Engineers Senior" }
    title := title
    yaxis_title := yaxis_title
    barmode := "group"
    xaxis_tickangle := -45 }

/-- A piece of a file: literal text, an unrendered jinja2 placeholder, or
the markup `to_html` produced for a figure. -/
inductive Fragment where
  | text (s : String)
  | hole (n : String)
  | chartHtml (f : Figure)
deriving DecidableEq

/-- The file system: a map from paths to file contents. -/
structure FileSys where
  files : String → Option (List Fragment)

/-- `read_template` (src/main.py:7-18): `open(path).read()`; a missing
file raises `FileNotFoundError`. -/
def read_template (fs : FileSys) (template_path : String) : Except String (List Fragment) :=
  match fs.files template_path with
  | none => Except.error "FileNotFoundError"
  | some content => Except.ok content

/-- jinja2 `Template(...).render(...)` restricted to the named-variable
substitution the program uses: each `hole` is replaced by the markup bound
to its name, or by empty text when the name is unbound (jinja2 renders
undefined variables as the empty string). -/
def renderTemplate (binding : String → Option Figure) (t : List Fragment) : List Fragment :=
  t.map fun p =>
    match p with
    | Fragment.text s => Fragment.text s
    | Fragment.hole n =>
        match binding n with
        | some f => Fragment.chartHtml f
        | none => Fragment.text ""
    | Fragment.chartHtml f => Fragment.chartHtml f

/-- The category axis ordering computed at src/main.py:101:
`sorted(data['CATEGORIA'].unique())`. -/
def reportCategories (data : List Row) : List String :=
  List.insertionSort (· ≤ ·) (data.map Row.CATEGORIA).dedup

/-- The six score mappings and five figures computed in the body of
`generate_interactive_report` (src/main.py:101-134). -/
structure ReportData where
  categories : List String
  junior_data : List (String × ℚ)
  senior_data : List (String × ℚ)
  junior_analytics : List (String × ℚ)
  senior_analytics : List (String × ℚ)
  pleno_data : List (String × ℚ)
  pleno_analytics : List (String × ℚ)
  junior_senior_chart_data : Figure
  pleno_senior_chart_data : Figure
  junior_senior_chart_analytics : Figure
  pleno_senior_chart_analytics : Figure
  senior_comparison_chart : Figure

/-- The pure computation of `generate_interactive_report`
(src/main.py:101-134): the global category ordering, the six mean-score
mappings (track pre-filter on `CARGO`, then `calculate_mean_scores` per
level), and the five charts, all built against the shared ordering. -/
def buildReportData (data : List Row) : ReportData :=
  let categories := reportCategories data
  let junior_data := calculate_mean_scores
    (data.filter fun r => r.CARGO == "ENGENHARIA DE DADOS") "Junior"
  let senior_data := calculate_mean_scores
    (data.filter fun r => r.CARGO == "ENGENHARIA DE DADOS") "Sênior"
  let junior_analytics := calculate_mean_scores
    (data.filter fun r => r.CARGO == "ENGENHARIA DE ANALYTICS") "Junior"
  let senior_analytics := calculate_mean_scores
    (data.filter fun r => r.CARGO == "ENGENHARIA DE ANALYTICS") "Sênior"
  let pleno_data := calculate_mean_scores
    (data.filter fun r => r.CARGO == "ENGENHARIA DE DADOS") "Pleno"
  let pleno_analytics := calculate_mean_scores
    (data.filter fun r => r.CARGO == "ENGENHARIA DE ANALYTICS") "Pleno"
  { categories := categories
    junior_data := junior_data
    senior_data := senior_data
    junior_analytics := junior_analytics
    senior_analytics := senior_analytics
    pleno_data := pleno_data
    pleno_analytics := pleno_analytics
    junior_senior_chart_data := create_bar_chart junior_data senior_data categories
      "Comparação de Pontuação Média: Juniors vs Seniors (Data Engineers)"
      "Pontuação Média"
    pleno_senior_chart_data := create_bar_chart pleno_data senior_data categories
      "Comparação de Pontuação Média: Plenos vs Seniors (Data Engineers)"
      "Pontuação Média"
    junior_senior_chart_analytics := create_bar_chart junior_analytics senior_analytics categories
      "Comparação de Pontuação Média: Juniors vs Seniors (Analytics Engineers)"
      "Pontuação Média"
    pleno_senior_chart_analytics := create_bar_chart pleno_analytics senior_analytics categories
      "Comparação de Pontuação Média: Plenos vs Seniors (Analytics Engineers)"
      "Pontuação Média"
    senior_comparison_chart := create_senior_comparison_chart senior_data senior_analytics
      categories
      "Comparação de Pontuação Média: Seniors (Data vs Analytics Engineers)"
      "Pontuação Média" }

/-- The binding of the five template placeholder names to the five chart
markups, as passed to `template.render(...)` (src/main.py:138-144). -/
def chartBindings (rd : ReportData) : String → Option Figure := fun n =>
  if n = "junior_senior_chart_data" then some rd.junior_senior_chart_data
  else if n = "pleno_senior_chart_data" then some rd.pleno_senior_chart_data
  else if n = "junior_senior_chart_analytics" then some rd.junior_senior_chart_analytics
  else if n = "pleno_senior_chart_analytics" then some rd.pleno_senior_chart_analytics
  else if n = "senior_comparison_chart" then some rd.senior_comparison_chart
  else none

/-- `generate_interactive_report` (src/main.py:85-150): read the template
(failing first if it is missing), compute the report data, render the
template, write the result to `output_path`, and return that path.  The
file system and the table are threaded explicitly; the returned table is
the table as the run leaves it. -/
def generate_interactive_report (fs : FileSys) (data : List Row)
    (template_path output_path : String) :
    Except String (FileSys × List Row × String) :=
  match read_template fs template_path with
  | Except.error e => Except.error e
  | Except.ok template_content =>
      let rd := buildReportData data
      let html_report := renderTemplate (chartBindings rd) template_content
      Except.ok
        (⟨fun p => if p = output_path then some html_report else fs.files p⟩,
         data, output_path)

/-- The output path a run returned, when it succeeded. -/
def okPath (res : Except String (FileSys × List Row × String)) : Option String :=
  match res with
  | Except.ok (_, _, p) => some p
  | Except.error _ => none

/-- The table a run returned, when it succeeded. -/
def okTable (res : Except String (FileSys × List Row × String)) : Option (List Row) :=
  match res with
  | Except.ok (_, d, _) => some d
  | Except.error _ => none

/-- The contents of path `p` in the file system a run returned; `none`
when the run failed (a failed run changes no file). -/
def okFileAt (res : Except String (FileSys × List Row × String)) (p : String) :
    Option (List Fragment) :=
  match res with
  | Except.ok (fs, _, _) => fs.files p
  | Except.error _ => none

/-- Lookup in an association list built by pairing each key with a value
computed from it: it finds exactly the keys of the list. -/
theorem lookup_keyed_map (f : String → ℚ) (keys : List String) (c : String) :
    (keys.map fun k => (k, f k)).lookup c = if c ∈ keys then some (f c) else none := by
  induction keys with
  | nil => simp
  | cons k ks ih =>
      by_cases h : c = k
      · simp [List.lookup, h]
      · have hb : (c == k) = false := beq_eq_false_iff_ne.mpr h
        simp [List.lookup, hb, ih, h]

/-- A placeholder bound to a figure renders as that figure's markup
wherever the placeholder occurs in the template. -/
theorem mem_renderTemplate_of_hole (binding : String → Option Figure) (t : List Fragment)
    (n : String) (f : Figure) (hb : binding n = some f) (hm : Fragment.hole n ∈ t) :
    Fragment.chartHtml f ∈ renderTemplate binding t := by
  unfold renderTemplate
  have h2 := List.mem_map_of_mem
    (fun p =>
      match p with
      | Fragment.text s => Fragment.text s
      | Fragment.hole n =>
          match binding n with
          | some f => Fragment.chartHtml f
          | none => Fragment.text ""
      | Fragment.chartHtml f => Fragment.chartHtml f) hm
  simpa [hb] using h2

/-- Concrete sample rows and tables used by the witness theorems. -/
def sampleRow1 : Row := ⟨"Junior", "ENGENHARIA DE DADOS", "X", 10⟩

def sampleRow2 : Row := ⟨"Junior", "ENGENHARIA DE DADOS", "X", 20⟩

def sampleTable : List Row := [sampleRow1, sampleRow2]

def sampleTable2 : List Row := [sampleRow2, sampleRow1]

def emptyFS : FileSys := ⟨fun _ => none⟩

def sampleTemplate : List Fragment :=
  [Fragment.text "<html>", Fragment.hole "junior_senior_chart_data",
   Fragment.hole "pleno_senior_chart_data", Fragment.hole "junior_senior_chart_analytics",
   Fragment.hole "pleno_senior_chart_analytics", Fragment.hole "senior_comparison_chart",
   Fragment.text "</html>"]

def templateFS : FileSys :=
  ⟨fun p => if p = "templates/template.html" then some sampleTemplate else none⟩

/-- Claim C1: for every table and every (level, track) filter, the key set
of the mapping returned by `calculate_mean_scores` applied after the track
pre-filter is a subset of the distinct category values of the filtered
rows (a category with zero matching rows never appears), and every key's
value is the arithmetic mean of `PONTUACAO` over that category's matching
rows. -/
theorem C1_meanByCategory_keys_and_means (data : List Row) (track level c : String) :
    (((calculate_mean_scores (data.filter fun r => r.CARGO == track) level).lookup c).isSome →
      c ∈ (((data.filter fun r => r.CARGO == track).filter fun r => r.NIVEL == level).map
        Row.CATEGORIA)) ∧
    (∀ v, (calculate_mean_scores (data.filter fun r => r.CARGO == track) level).lookup c = some v →
      v = listMean ((((data.filter fun r => r.CARGO == track).filter
          fun r => r.NIVEL == level).filter fun r => r.CATEGORIA == c).map Row.PONTUACAO)) := by
  set rows := ((data.filter fun r => r.CARGO == track).filter fun r => r.NIVEL == level) with hrows
  have hcalc : calculate_mean_scores (data.filter fun r => r.CARGO == track) level
      = (sortedKeys rows).map fun k =>
        (k, listMean ((rows.filter fun r => r.CATEGORIA == k).map Row.PONTUACAO)) := rfl
  have hl := lookup_keyed_map
    (fun k => listMean ((rows.filter fun r => r.CATEGORIA == k).map Row.PONTUACAO))
    (sortedKeys rows) c
  have hmem : c ∈ sortedKeys rows ↔ c ∈ rows.map Row.CATEGORIA := by
    unfold sortedKeys
    rw [(List.perm_insertionSort _ _).mem_iff, List.mem_dedup]
  constructor
  · intro hs
    rw [hcalc, hl] at hs
    by_cases h : c ∈ sortedKeys rows
    · exact hmem.mp h
    · simp [h] at hs
  · intro v hv
    rw [hcalc, hl] at hv
    by_cases h : c ∈ sortedKeys rows
    · simp [h] at hv
      exact hv.symm
    · simp [h] at hv

theorem C1_witness :
    ((calculate_mean_scores (sampleTable.filter fun r => r.CARGO == "ENGENHARIA DE DADOS")
        "Junior").lookup "X").isSome = true ∧
    "X" ∈ (((sampleTable.filter fun r => r.CARGO == "ENGENHARIA DE DADOS").filter
        fun r => r.NIVEL == "Junior").map Row.CATEGORIA) ∧
    listMean [(10 : ℚ), 20]
      = listMean ((((sampleTable.filter fun r => r.CARGO == "ENGENHARIA DE DADOS").filter
          fun r => r.NIVEL == "Junior").filter fun r => r.CATEGORIA == "X").map Row.PONTUACAO) :=
  ⟨by decide,
   (C1_meanByCategory_keys_and_means sampleTable "ENGENHARIA DE DADOS" "Junior" "X").1 (by decide),
   (C1_meanByCategory_keys_and_means sampleTable "ENGENHARIA DE DADOS" "Junior" "X").2
     (listMean [10, 20]) rfl⟩

/-- Claim C2: for every pair of score mappings and every ordered category
list, each of the two series of both chart builders has length equal to
the number of categories, and the value at each index is the mapping's
value for that category when present and `0` when absent (`dict.get`
default fill). -/
theorem C2_chart_series_length_and_default_fill (data1 data2 : List (String × ℚ))
    (labels : List String) (title yaxis_title : String) (i : Nat) (hi : i < labels.length) :
    (create_bar_chart data1 data2 labels title yaxis_title).traceA.y.length = labels.length ∧
    (create_bar_chart data1 data2 labels title yaxis_title).traceB.y.length = labels.length ∧
    (create_senior_comparison_chart data1 data2 labels title yaxis_title).traceA.y.length
      = labels.length ∧
    (create_senior_comparison_chart data1 data2 labels title yaxis_title).traceB.y.length
      = labels.length ∧
    (create_bar_chart data1 data2 labels title yaxis_title).traceA.y[i]?
      = some (dictGet data1 labels[i]) ∧
    (create_bar_chart data1 data2 labels title yaxis_title).traceB.y[i]?
      = some (dictGet data2 labels[i]) ∧
    (create_senior_comparison_chart data1 data2 labels title yaxis_title).traceA.y[i]?
      = some (dictGet data1 labels[i]) ∧
    (create_senior_comparison_chart data1 data2 labels title yaxis_title).traceB.y[i]?
      = some (dictGet data2 labels[i]) := by
  simp [create_bar_chart, create_senior_comparison_chart, List.getElem?_map,
    List.getElem?_eq_getElem hi]

theorem C2_witness :
    1 < (["X", "Y"] : List String).length ∧
    (create_bar_chart [("X", (10 : ℚ))] [("Y", (7 : ℚ))] ["X", "Y"] "t" "y").traceA.y[1]?
      = some 0 ∧
    (create_bar_chart [("X", (10 : ℚ))] [("Y", (7 : ℚ))] ["X", "Y"] "t" "y").traceB.y[1]?
      = some 7 := by
  refine ⟨by decide, ?_, ?_⟩
  · have h := (C2_chart_series_length_and_default_fill [("X", 10)] [("Y", 7)] ["X", "Y"]
      "t" "y" 1 (by decide)).2.2.2.2.1
    rw [h]; decide
  · have h := (C2_chart_series_length_and_default_fill [("X", 10)] [("Y", 7)] ["X", "Y"]
      "t" "y" 1 (by decide)).2.2.2.2.2.1
    rw [h]; decide

/-- Claim C3: the category axis ordering of the Report Assembler is the
lexicographically sorted distinct category set of the full table, is
invariant under permutation of the input rows, and is the x-axis of both
traces of all five charts. -/
theorem C3_category_ordering_sorted_permutation_invariant (data data2 : List Row)
    (hperm : data.Perm data2) :
    List.Sorted (· ≤ ·) (reportCategories data) ∧
    (∀ c, c ∈ reportCategories data ↔ c ∈ data.map Row.CATEGORIA) ∧
    reportCategories data = reportCategories data2 ∧
    (buildReportData data).junior_senior_chart_data.traceA.x = reportCategories data ∧
    (buildReportData data).junior_senior_chart_data.traceB.x = reportCategories data ∧
    (buildReportData data).pleno_senior_chart_data.traceA.x = reportCategories data ∧
    (buildReportData data).pleno_senior_chart_data.traceB.x = reportCategories data ∧
    (buildReportData data).junior_senior_chart_analytics.traceA.x = reportCategories data ∧
    (buildReportData data).junior_senior_chart_analytics.traceB.x = reportCategories data ∧
    (buildReportData data).pleno_senior_chart_analytics.traceA.x = reportCategories data ∧
    (buildReportData data).pleno_senior_chart_analytics.traceB.x = reportCategories data ∧
    (buildReportData data).senior_comparison_chart.traceA.x = reportCategories data ∧
    (buildReportData data).senior_comparison_chart.traceB.x = reportCategories data := by
  refine ⟨?_, ?_, ?_, rfl, rfl, rfl, rfl, rfl, rfl, rfl, rfl, rfl, rfl⟩
  · exact List.sorted_insertionSort _ _
  · intro c
    unfold reportCategories
    rw [(List.perm_insertionSort _ _).mem_iff, List.mem_dedup]
  · have h1 : ((data.map Row.CATEGORIA).dedup).Perm ((data2.map Row.CATEGORIA).dedup) :=
      (hperm.map Row.CATEGORIA).dedup
    have h2 : (reportCategories data).Perm (reportCategories data2) :=
      ((List.perm_insertionSort _ _).trans h1).trans (List.perm_insertionSort _ _).symm
    exact List.eq_of_perm_of_sorted h2 (List.sorted_insertionSort _ _)
      (List.sorted_insertionSort _ _)

theorem C3_witness :
    sampleTable.Perm sampleTable2 ∧
    (List.Sorted (· ≤ ·) (reportCategories sampleTable) ∧
    (∀ c, c ∈ reportCategories sampleTable ↔ c ∈ sampleTable.map Row.CATEGORIA) ∧
    reportCategories sampleTable = reportCategories sampleTable2 ∧
    (buildReportData sampleTable).junior_senior_chart_data.traceA.x
      = reportCategories sampleTable ∧
    (buildReportData sampleTable).junior_senior_chart_data.traceB.x
      = reportCategories sampleTable ∧
    (buildReportData sampleTable).pleno_senior_chart_data.traceA.x
      = reportCategories sampleTable ∧
    (buildReportData sampleTable).pleno_senior_chart_data.traceB.x
      = reportCategories sampleTable ∧
    (buildReportData sampleTable).junior_senior_chart_analytics.traceA.x
      = reportCategories sampleTable ∧
    (buildReportData sampleTable).junior_senior_chart_analytics.traceB.x
      = reportCategories sampleTable ∧
    (buildReportData sampleTable).pleno_senior_chart_analytics.traceA.x
      = reportCategories sampleTable ∧
    (buildReportData sampleTable).pleno_senior_chart_analytics.traceB.x
      = reportCategories sampleTable ∧
    (buildReportData sampleTable).senior_comparison_chart.traceA.x
      = reportCategories sampleTable ∧
    (buildReportData sampleTable).senior_comparison_chart.traceB.x
      = reportCategories sampleTable) :=
  ⟨by decide,
   C3_category_ordering_sorted_permutation_invariant sampleTable sampleTable2 (by decide)⟩

/-- Claim C4: the rows contributing to an aggregation are exactly those
whose `CARGO` equals the track filter and whose `NIVEL` equals the level
filter; the two successive equality filters (track in the assembler,
level in the aggregator) equal the one-step conjunction filter. -/
theorem C4_filter_conjunction (data : List Row) (track level : String) :
    ((data.filter fun r => r.CARGO == track).filter fun r => r.NIVEL == level)
      = data.filter (fun r => r.CARGO == track && r.NIVEL == level) ∧
    calculate_mean_scores (data.filter fun r => r.CARGO == track) level
      = groupMeans (data.filter fun r => r.CARGO == track && r.NIVEL == level) := by
  have h : ((data.filter fun r => r.CARGO == track).filter fun r => r.NIVEL == level)
      = data.filter (fun r => r.CARGO == track && r.NIVEL == level) := by
    rw [List.filter_filter]
    exact List.filter_congr (fun r _ => Bool.and_comm _ _)
  exact ⟨h, by unfold calculate_mean_scores; rw [h]⟩

/-- Claim C5: the chart builders and the Report Assembler are
deterministic: two runs on equal inputs produce equal chart descriptions
(hence equal markup, up to the library-injected unique element
identifiers the description abstracts over) and equal run results. -/
theorem C5_chart_builder_and_report_deterministic (d1 d1' d2 d2' : List (String × ℚ))
    (ls ls' : List String) (t t' ya ya' : String) (fs fs' : FileSys) (tb tb' : List Row)
    (tp tp' op op' : String)
    (h1 : d1 = d1') (h2 : d2 = d2') (h3 : ls = ls') (h4 : t = t') (h5 : ya = ya')
    (h6 : fs = fs') (h7 : tb = tb') (h8 : tp = tp') (h9 : op = op') :
    create_bar_chart d1 d2 ls t ya = create_bar_chart d1' d2' ls' t' ya' ∧
    create_senior_comparison_chart d1 d2 ls t ya
      = create_senior_comparison_chart d1' d2' ls' t' ya' ∧
    generate_interactive_report fs tb tp op = generate_interactive_report fs' tb' tp' op' := by
  subst h1 h2 h3 h4 h5 h6 h7 h8 h9
  exact ⟨rfl, rfl, rfl⟩

theorem C5_witness :
    ([("X", (10 : ℚ))] : List (String × ℚ)) = [("X", 10)] ∧
    ([] : List (String × ℚ)) = [] ∧
    (["X"] : List String) = ["X"] ∧
    "t" = "t" ∧ "y" = "y" ∧ emptyFS = emptyFS ∧ sampleTable = sampleTable ∧
    "a" = "a" ∧ "b" = "b" ∧
    (create_bar_chart [("X", 10)] [] ["X"] "t" "y"
        = create_bar_chart [("X", 10)] [] ["X"] "t" "y" ∧
      create_senior_comparison_chart [("X", 10)] [] ["X"] "t" "y"
        = create_senior_comparison_chart [("X", 10)] [] ["X"] "t" "y" ∧
      generate_interactive_report emptyFS sampleTable "a" "b"
        = generate_interactive_report emptyFS sampleTable "a" "b") :=
  ⟨rfl, rfl, rfl, rfl, rfl, rfl, rfl, rfl, rfl,
   C5_chart_builder_and_report_deterministic [("X", 10)] [("X", 10)] [] [] ["X"] ["X"]
     "t" "t" "y" "y" emptyFS emptyFS sampleTable sampleTable "a" "a" "b" "b"
     rfl rfl rfl rfl rfl rfl rfl rfl rfl⟩

/-- Claim C6: if the template file is absent the Report Assembler aborts
with the file-not-found I/O error before any aggregation or chart
construction, and no output file is created or modified (a failed run
returns no file system; `okFileAt` of the failed run is `none`). -/
theorem C6_missing_template_aborts (fs : FileSys) (data : List Row) (tp op : String)
    (h : fs.files tp = none) :
    generate_interactive_report fs data tp op = Except.error "FileNotFoundError" ∧
    okFileAt (generate_interactive_report fs data tp op) op = none := by
  have hr : read_template fs tp = Except.error "FileNotFoundError" := by
    unfold read_template; rw [h]
  have hg : generate_interactive_report fs data tp op = Except.error "FileNotFoundError" := by
    unfold generate_interactive_report; rw [hr]
  exact ⟨hg, by rw [hg]; rfl⟩

theorem C6_witness :
    emptyFS.files "templates/template.html" = none ∧
    (generate_interactive_report emptyFS sampleTable "templates/template.html"
        "engineering_insights_interactive_report.html" = Except.error "FileNotFoundError" ∧
      okFileAt (generate_interactive_report emptyFS sampleTable "templates/template.html"
        "engineering_insights_interactive_report.html")
        "engineering_insights_interactive_report.html" = none) :=
  ⟨rfl,
   C6_missing_template_aborts emptyFS sampleTable "templates/template.html"
     "engineering_insights_interactive_report.html" rfl⟩

/-- Claim C7: on the empty input table the six score mappings are empty,
every chart series bound into the template is empty (all-zero over the
empty category ordering), and the Report Assembler still succeeds: it
returns the output path and writes the rendered template, in which each
of the five placeholders present in the template is replaced by its
chart's markup. -/
theorem C7_empty_table_report (fs : FileSys) (tp op : String) (tmpl : List Fragment)
    (hread : fs.files tp = some tmpl)
    (h1 : Fragment.hole "junior_senior_chart_data" ∈ tmpl)
    (h2 : Fragment.hole "pleno_senior_chart_data" ∈ tmpl)
    (h3 : Fragment.hole "junior_senior_chart_analytics" ∈ tmpl)
    (h4 : Fragment.hole "pleno_senior_chart_analytics" ∈ tmpl)
    (h5 : Fragment.hole "senior_comparison_chart" ∈ tmpl) :
    (buildReportData []).categories = [] ∧
    (buildReportData []).junior_data = [] ∧
    (buildReportData []).senior_data = [] ∧
    (buildReportData []).junior_analytics = [] ∧
    (buildReportData []).senior_analytics = [] ∧
    (buildReportData []).pleno_data = [] ∧
    (buildReportData []).pleno_analytics = [] ∧
    (∀ n f, chartBindings (buildReportData []) n = some f →
      f.traceA.y = [] ∧ f.traceB.y = []) ∧
    okPath (generate_interactive_report fs [] tp op) = some op ∧
    okTable (generate_interactive_report fs [] tp op) = some [] ∧
    okFileAt (generate_interactive_report fs [] tp op) op
      = some (renderTemplate (chartBindings (buildReportData [])) tmpl) ∧
    Fragment.chartHtml (buildReportData []).junior_senior_chart_data
      ∈ renderTemplate (chartBindings (buildReportData [])) tmpl ∧
    Fragment.chartHtml (buildReportData []).pleno_senior_chart_data
      ∈ renderTemplate (chartBindings (buildReportData [])) tmpl ∧
    Fragment.chartHtml (buildReportData []).junior_senior_chart_analytics
      ∈ renderTemplate (chartBindings (buildReportData [])) tmpl ∧
    Fragment.chartHtml (buildReportData []).pleno_senior_chart_analytics
      ∈ renderTemplate (chartBindings (buildReportData [])) tmpl ∧
    Fragment.chartHtml (buildReportData []).senior_comparison_chart
      ∈ renderTemplate (chartBindings (buildReportData [])) tmpl := by
  have hg : generate_interactive_report fs [] tp op
      = Except.ok
        (⟨fun p => if p = op
            then some (renderTemplate (chartBindings (buildReportData [])) tmpl)
            else fs.files p⟩, [], op) := by
    unfold generate_interactive_report read_template
    rw [hread]
  refine ⟨rfl, rfl, rfl, rfl, rfl, rfl, rfl, ?_, ?_, ?_, ?_, ?_, ?_, ?_, ?_, ?_⟩
  · intro n f h
    unfold chartBindings at h
    split_ifs at h <;>
      first
        | exact Option.noConfusion h
        | (injection h with h0; subst h0; exact ⟨rfl, rfl⟩)
  · rw [hg]; rfl
  · rw [hg]; rfl
  · rw [hg]
    show (if op = op then _ else _) = _
    rw [if_pos rfl]
  · exact mem_renderTemplate_of_hole _ _ _ _ (by simp [chartBindings]) h1
  · exact mem_renderTemplate_of_hole _ _ _ _ (by simp [chartBindings]) h2
  · exact mem_renderTemplate_of_hole _ _ _ _ (by simp [chartBindings]) h3
  · exact mem_renderTemplate_of_hole _ _ _ _ (by simp [chartBindings]) h4
  · exact mem_renderTemplate_of_hole _ _ _ _ (by simp [chartBindings]) h5

theorem C7_witness :
    templateFS.files "templates/template.html" = some sampleTemplate ∧
    Fragment.hole "junior_senior_chart_data" ∈ sampleTemplate ∧
    Fragment.hole "pleno_senior_chart_data" ∈ sampleTemplate ∧
    Fragment.hole "junior_senior_chart_analytics" ∈ sampleTemplate ∧
    Fragment.hole "pleno_senior_chart_analytics" ∈ sampleTemplate ∧
    Fragment.hole "senior_comparison_chart" ∈ sampleTemplate ∧
    ((buildReportData []).categories = [] ∧
    (buildReportData []).junior_data = [] ∧
    (buildReportData []).senior_data = [] ∧
    (buildReportData []).junior_analytics = [] ∧
    (buildReportData []).senior_analytics = [] ∧
    (buildReportData []).pleno_data = [] ∧
    (buildReportData []).pleno_analytics = [] ∧
    (∀ n f, chartBindings (buildReportData []) n = some f →
      f.traceA.y = [] ∧ f.traceB.y = []) ∧
    okPath (generate_interactive_report templateFS [] "templates/template.html" "out.html")
      = some "out.html" ∧
    okTable (generate_interactive_report templateFS [] "templates/template.html" "out.html")
      = some [] ∧
    okFileAt (generate_interactive_report templateFS [] "templates/template.html" "out.html")
        "out.html"
      = some (renderTemplate (chartBindings (buildReportData [])) sampleTemplate) ∧
    Fragment.chartHtml (buildReportData []).junior_senior_chart_data
      ∈ renderTemplate (chartBindings (buildReportData [])) sampleTemplate ∧
    Fragment.chartHtml (buildReportData []).pleno_senior_chart_data
      ∈ renderTemplate (chartBindings (buildReportData [])) sampleTemplate ∧
    Fragment.chartHtml (buildReportData []).junior_senior_chart_analytics
      ∈ renderTemplate (chartBindings (buildReportData [])) sampleTemplate ∧
    Fragment.chartHtml (buildReportData []).pleno_senior_chart_analytics
      ∈ renderTemplate (chartBindings (buildReportData [])) sampleTemplate ∧
    Fragment.chartHtml (buildReportData []).senior_comparison_chart
      ∈ renderTemplate (chartBindings (buildReportData [])) sampleTemplate) :=
  ⟨by decide, by decide, by decide, by decide, by decide, by decide,
   C7_empty_table_report templateFS "templates/template.html" "out.html" sampleTemplate
     (by decide) (by decide) (by decide) (by decide) (by decide) (by decide)⟩

/-- Claim C8: the input table is never mutated by the pipeline: whenever
the Report Assembler succeeds, the table it returns (the table as the run
leaves it) is the input table.  Every aggregation and filter in the
embedding reads the table and returns fresh values, mirroring the pandas
operations in the source, none of which is in-place. -/
theorem C8_table_not_mutated (fs : FileSys) (data : List Row) (tp op : String)
    (fs2 : FileSys) (d2 : List Row) (p2 : String)
    (h : generate_interactive_report fs data tp op = Except.ok (fs2, d2, p2)) :
    d2 = data := by
  unfold generate_interactive_report read_template at h
  cases hf : fs.files tp with
  | none =>
      rw [hf] at h
      exact Except.noConfusion h
  | some t =>
      rw [hf] at h
      simp only [Except.ok.injEq, Prod.mk.injEq] at h
      exact h.2.1.symm

theorem C8_witness :
    generate_interactive_report templateFS sampleTable "templates/template.html" "out.html"
      = Except.ok
        (⟨fun p => if p = "out.html"
            then some (renderTemplate (chartBindings (buildReportData sampleTable))
              sampleTemplate)
            else templateFS.files p⟩, sampleTable, "out.html") ∧
    sampleTable = sampleTable :=
  ⟨rfl,
   C8_table_not_mutated templateFS sampleTable "templates/template.html" "out.html"
     _ _ _ rfl⟩

/-- Claim C9: the two series names of `create_bar_chart` are the fixed
strings `Juniors` and `Seniors` for all inputs, so the two Plenos-vs-
Seniors charts of the Report Assembler also carry those names. -/
theorem C9_series_names_fixed (d1 d2 : List (String × ℚ)) (ls : List String) (t ya : String)
    (data : List Row) :
    (create_bar_chart d1 d2 ls t ya).traceA.name = "Juniors" ∧
    (create_bar_chart d1 d2 ls t ya).traceB.name = "Seniors" ∧
    (buildReportData data).pleno_senior_chart_data.traceA.name = "Juniors" ∧
    (buildReportData data).pleno_senior_chart_data.traceB.name = "Seniors" ∧
    (buildReportData data).pleno_senior_chart_analytics.traceA.name = "Juniors" ∧
    (buildReportData data).pleno_senior_chart_analytics.traceB.name = "Seniors" :=
  ⟨rfl, rfl, rfl, rfl, rfl, rfl⟩

/-- Claim C10: `create_senior_comparison_chart` builds the same chart
description as `create_bar_chart` on the same arguments except for the
two series names: same x values, same y values with the same zero-default
fill, same grouped bar mode, and same -45 degree tick angle. -/
theorem C10_senior_chart_refines_bar_chart (d1 d2 : List (String × ℚ)) (cats : List String)
    (t ya : String) :
    (create_senior_comparison_chart d1 d2 cats t ya).traceA.x
      = (create_bar_chart d1 d2 cats t ya).traceA.x ∧
    (create_senior_comparison_chart d1 d2 cats t ya).traceA.y
      = (create_bar_chart d1 d2 cats t ya).traceA.y ∧
    (create_senior_comparison_chart d1 d2 cats t ya).traceB.x
      = (create_bar_chart d1 d2 cats t ya).traceB.x ∧
    (create_senior_comparison_chart d1 d2 cats t ya).traceB.y
      = (create_bar_chart d1 d2 cats t ya).traceB.y ∧
    (create_senior_comparison_chart d1 d2 cats t ya).title
      = (create_bar_chart d1 d2 cats t ya).title ∧
    (create_senior_comparison_chart d1 d2 cats t ya).yaxis_title
      = (create_bar_chart d1 d2 cats t ya).yaxis_title ∧
    (create_senior_comparison_chart d1 d2 cats t ya).barmode
      = (create_bar_chart d1 d2 cats t ya).barmode ∧
    (create_senior_comparison_chart d1 d2 cats t ya).xaxis_tickangle
      = (create_bar_chart d1 d2 cats t ya).xaxis_tickangle ∧
    (create_senior_comparison_chart d1 d2 cats t ya).traceA.name = "Data Engineers Senior" ∧
    (create_senior_comparison_chart d1 d2 cats t ya).traceB.name = "Analytics Engineers Senior" ∧
    (create_senior_comparison_chart d1 d2 cats t ya).barmode = "group" ∧
    (create_senior_comparison_chart d1 d2 cats t ya).xaxis_tickangle = -45 :=
  ⟨rfl, rfl, rfl, rfl, rfl, rfl, rfl, rfl, rfl, rfl, rfl, rfl⟩
